import Mathlib

/-!
Verification development for a hotel-reservation record system.

The system keeps three snapshots (customers, hotels, reservations), each a
mapping from a string id to a record, persisted as a whole file.  We embed
each snapshot as an association list `List (String × α)` with Python-dict
semantics: `lookupKey` finds the (unique) entry for a key, `setKey`
replaces the value at an existing key or appends a fresh binding, and
`eraseKey` removes a key.  Each store operation loads the snapshot,
mutates it and saves it back; in the single-process sequential model this
is plain state passing, so every operation is a pure function from the
snapshot (or the three-snapshot `State`) to a result paired with the new
snapshot.  The random reservation id produced by `uuid` is modelled as an
explicit input to `create_reservation`.
-/

namespace HotelSys

/-- A customer record (`customer.py`, class `Customer`). -/
structure Customer where
  customer_id : String
  name : String
  email : String
  phone : String
deriving DecidableEq, Repr

/-- A hotel record (`hotel.py`, class `Hotel`).  Room counts are plain
Python integers, so we use `Int`; nothing in the code keeps them
non-negative. -/
structure Hotel where
  hotel_id : String
  name : String
  location : String
  total_rooms : Int
  available_rooms : Int
deriving DecidableEq, Repr

/-- A reservation record (`reservation.py`, class `Reservation`). -/
structure Reservation where
  reservation_id : String
  customer_id : String
  hotel_id : String
  check_in : String
  check_out : String
deriving DecidableEq, Repr

/-- A snapshot: a Python dict keyed by id, embedded as an association
list. -/
abbrev Snap (α : Type) := List (String × α)

/-- `d[k]` / `k in d`: value at key `k`, `none` when absent. -/
def lookupKey {α : Type} : Snap α → String → Option α
  | [], _ => none
  | (k', v) :: rest, k => if k' = k then some v else lookupKey rest k

/-- `d[k] = v`: replace the value at key `k`, or append the binding when
the key is absent. -/
def setKey {α : Type} : Snap α → String → α → Snap α
  | [], k, v => [(k, v)]
  | (k', v') :: rest, k, v =>
      if k' = k then (k, v) :: rest else (k', v') :: setKey rest k v

/-- `del d[k]`: remove the binding for key `k`. -/
def eraseKey {α : Type} : Snap α → String → Snap α
  | [], _ => []
  | (k', v) :: rest, k =>
      if k' = k then eraseKey rest k else (k', v) :: eraseKey rest k

/-- A Python dict never holds two bindings for the same key; snapshots
loaded from it have pairwise distinct keys. -/
def NodupKeys {α : Type} (m : Snap α) : Prop :=
  (m.map Prod.fst).Nodup

instance {α : Type} (m : Snap α) : Decidable (NodupKeys m) := by
  unfold NodupKeys; infer_instance

/-- Truthiness of an optional-string argument: Python `if name:` is false
for both `None` and the empty string. -/
def truthyStr : Option String → Bool
  | none => false
  | some s => s ≠ ""

/-- Value of an optional argument when its truthiness test passed. -/
def getStr (o : Option String) (dflt : String) : String :=
  o.getD dflt

/-! ## CustomerStore (`customer.py`) -/

/-- `Customer.create_customer`: fail on a duplicate id, otherwise insert
and persist, returning the created record. -/
def create_customer (customers : Snap Customer)
    (customer_id name email phone : String) :
    Option Customer × Snap Customer :=
  if (lookupKey customers customer_id).isSome then
    (none, customers)
  else
    let c : Customer := ⟨customer_id, name, email, phone⟩
    (some c, setKey customers customer_id c)

/-- `Customer.delete_customer`: fail when the id is absent, otherwise
remove and persist. -/
def delete_customer (customers : Snap Customer) (customer_id : String) :
    Bool × Snap Customer :=
  if (lookupKey customers customer_id).isNone then
    (false, customers)
  else
    (true, eraseKey customers customer_id)

/-- `Customer.modify_customer`: fail when the id is absent; otherwise
overwrite each of name/email/phone only when the supplied argument is
truthy (neither `None` nor the empty string), persist, succeed. -/
def modify_customer (customers : Snap Customer) (customer_id : String)
    (name email phone : Option String) : Bool × Snap Customer :=
  match lookupKey customers customer_id with
  | none => (false, customers)
  | some c =>
      let c1 := if truthyStr name then { c with name := getStr name c.name } else c
      let c2 := if truthyStr email then { c1 with email := getStr email c1.email } else c1
      let c3 := if truthyStr phone then { c2 with phone := getStr phone c2.phone } else c2
      (true, setKey customers customer_id c3)

/-! ## HotelStore (`hotel.py`) -/

/-- `Hotel.create_hotel`: fail on a duplicate id, otherwise insert the
new hotel with `available_rooms = total_rooms` (from `Hotel.__init__`)
and persist, returning the created record. -/
def create_hotel (hotels : Snap Hotel)
    (hotel_id name location : String) (total_rooms : Int) :
    Option Hotel × Snap Hotel :=
  if (lookupKey hotels hotel_id).isSome then
    (none, hotels)
  else
    let h : Hotel := ⟨hotel_id, name, location, total_rooms, total_rooms⟩
    (some h, setKey hotels hotel_id h)

/-- `Hotel.delete_hotel`: fail when the id is absent, otherwise remove
and persist. -/
def delete_hotel (hotels : Snap Hotel) (hotel_id : String) :
    Bool × Snap Hotel :=
  if (lookupKey hotels hotel_id).isNone then
    (false, hotels)
  else
    (true, eraseKey hotels hotel_id)

/-- `Hotel.modify_hotel`: fail when the id is absent; otherwise update
name and location under truthiness tests, update `total_rooms` under an
`is not None` test (shifting `available_rooms` by the delta, clamped at
0 from below), persist, succeed. -/
def modify_hotel (hotels : Snap Hotel) (hotel_id : String)
    (name location : Option String) (total_rooms : Option Int) :
    Bool × Snap Hotel :=
  match lookupKey hotels hotel_id with
  | none => (false, hotels)
  | some h =>
      let h1 := if truthyStr name then { h with name := getStr name h.name } else h
      let h2 := if truthyStr location then
          { h1 with location := getStr location h1.location } else h1
      let h3 := match total_rooms with
        | none => h2
        | some t =>
            { h2 with
              total_rooms := t,
              available_rooms := max 0 (h2.available_rooms + (t - h2.total_rooms)) }
      (true, setKey hotels hotel_id h3)

/-- `Hotel.reserve_room`: fail when the id is absent or no room is
available (`available_rooms ≤ 0`); otherwise decrement
`available_rooms`, persist, succeed. -/
def reserve_room (hotels : Snap Hotel) (hotel_id : String) :
    Bool × Snap Hotel :=
  match lookupKey hotels hotel_id with
  | none => (false, hotels)
  | some h =>
      if h.available_rooms ≤ 0 then
        (false, hotels)
      else
        (true, setKey hotels hotel_id
          { h with available_rooms := h.available_rooms - 1 })

/-- `Hotel.cancel_room`: fail when the id is absent or the hotel is
already at capacity (`available_rooms ≥ total_rooms`); otherwise
increment `available_rooms`, persist, succeed. -/
def cancel_room (hotels : Snap Hotel) (hotel_id : String) :
    Bool × Snap Hotel :=
  match lookupKey hotels hotel_id with
  | none => (false, hotels)
  | some h =>
      if h.available_rooms ≥ h.total_rooms then
        (false, hotels)
      else
        (true, setKey hotels hotel_id
          { h with available_rooms := h.available_rooms + 1 })

/-! ## ReservationStore (`reservation.py`) -/

/-- The three snapshot files seen by `reservation.py`. -/
structure State where
  customers : Snap Customer
  hotels : Snap Hotel
  reservations : Snap Reservation
deriving DecidableEq, Repr

/-- `Reservation.create_reservation`: validate that the customer and the
hotel exist, delegate to `Hotel.reserve_room`, and only on its success
insert a new reservation record under the generated id `new_id` (the
`uuid`-derived id, modelled as an input).  Each failing check leaves
every snapshot unchanged. -/
def create_reservation (s : State)
    (new_id customer_id hotel_id check_in check_out : String) :
    Option Reservation × State :=
  if (lookupKey s.customers customer_id).isNone then
    (none, s)
  else if (lookupKey s.hotels hotel_id).isNone then
    (none, s)
  else
    let res := reserve_room s.hotels hotel_id
    if !res.1 then
      (none, { s with hotels := res.2 })
    else
      let r : Reservation := ⟨new_id, customer_id, hotel_id, check_in, check_out⟩
      (some r,
        { s with
          hotels := res.2,
          reservations := setKey s.reservations new_id r })

/-- `Reservation.cancel_reservation`: fail when the id is absent;
otherwise call `Hotel.cancel_room` on the reservation's hotel (ignoring
its result), then remove the reservation record, persist, succeed. -/
def cancel_reservation (s : State) (reservation_id : String) :
    Bool × State :=
  match lookupKey s.reservations reservation_id with
  | none => (false, s)
  | some r =>
      let res := cancel_room s.hotels r.hotel_id
      (true,
        { s with
          hotels := res.2,
          reservations := eraseKey s.reservations reservation_id })

/-! ## Traces of reservation-protocol calls (for the round-trip invariant) -/

/-- Number of live reservation records referencing hotel `hid`. -/
def resCount : Snap Reservation → String → Nat
  | [], _ => 0
  | (_, r) :: rest, hid =>
      (if r.hotel_id = hid then 1 else 0) + resCount rest hid

/-- One call of the reservation protocol: either
`Reservation.create_reservation` (with its generated id made explicit) or
`Reservation.cancel_reservation`. -/
inductive Ev where
  | createRes (new_id customer_id hotel_id check_in check_out : String)
  | cancelRes (reservation_id : String)
deriving DecidableEq, Repr

/-- Effect of one protocol call on the three snapshots. -/
def stepEv (s : State) : Ev → State
  | .createRes nid cid hid ci co => (create_reservation s nid cid hid ci co).2
  | .cancelRes rid => (cancel_reservation s rid).2

/-- Effect of a sequence of protocol calls. -/
def runEvs (s : State) : List Ev → State
  | [] => s
  | e :: es => runEvs (stepEv s e) es

/-- Freshness of the id generated by one call, at the state of the call. -/
def freshEv (s : State) : Ev → Bool
  | Ev.createRes nid _ _ _ _ => (lookupKey s.reservations nid).isNone
  | Ev.cancelRes _ => true

/-- The generated id of every create call in the trace is fresh at the
moment of the call — the collision-resistance assumption on the random
8-character `uuid` ids. -/
def freshRun (s : State) : List Ev → Bool
  | [] => true
  | e :: es => freshEv s e && freshRun (stepEv s e) es

/-! ## Sample data, used to instantiate theorems at concrete inputs -/

/-- A hotel with two rooms, both free. -/
def hotelA : Hotel := ⟨"h1", "Alpha", "Lima", 2, 2⟩

/-- A hotel with no free room. -/
def hotelEmpty : Hotel := ⟨"h3", "Gamma", "Puno", 2, 0⟩

/-- A hotel with ten rooms, all free. -/
def hotelTen : Hotel := ⟨"h10", "Delta", "Ica", 10, 10⟩

/-- A sample customer. -/
def custA : Customer := ⟨"c1", "Ana", "ana@mail.com", "111"⟩

/-- A sample reservation of customer `c1` at hotel `h1`. -/
def resA : Reservation := ⟨"r1", "c1", "h1", "2025-01-01", "2025-01-05"⟩

/-- A sample hotels snapshot. -/
def hotelsS : Snap Hotel := [("h1", hotelA), ("h3", hotelEmpty)]

/-- A sample customers snapshot. -/
def customersS : Snap Customer := [("c1", custA)]

/-- A sample reservations snapshot. -/
def reservationsS : Snap Reservation := [("r1", resA)]

/-- A sample three-snapshot state (hotel `h1` still has its two rooms
free and no live reservation references it). -/
def stateS : State :=
  ⟨customersS, [("h1", hotelA), ("h3", hotelEmpty)], [("r0", ⟨"r0", "c1", "h3", "d1", "d2"⟩)]⟩

/-- A state holding a reservation at hotel `h1` although `h1` is already
at capacity, so that cancelling the reservation sees `cancel_room`
fail. -/
def stateT : State := ⟨customersS, [("h1", hotelA)], [("r1", resA)]⟩

/-- The round-trip invariant for one hotel: the hotel is present, its
reservation snapshot has distinct keys, and its consumed rooms
(`total_rooms - available_rooms`) equal the number of live reservation
records referencing it. -/
def Inv (hid : String) (s : State) : Prop :=
  NodupKeys s.reservations ∧
  ∃ h, lookupKey s.hotels hid = some h ∧
    h.total_rooms - h.available_rooms = (resCount s.reservations hid : Int)

/-! ## Lemmas on the snapshot operations -/

theorem lookupKey_setKey_self {α : Type} (m : Snap α) (k : String) (v : α) :
    lookupKey (setKey m k v) k = some v := by
  induction m with
  | nil => simp [setKey, lookupKey]
  | cons p rest ih =>
      obtain ⟨k', v'⟩ := p
      by_cases h : k' = k
      · simp [setKey, h, lookupKey]
      · simp [setKey, h, lookupKey, ih]

theorem lookupKey_setKey_ne {α : Type} (m : Snap α) (k k' : String) (v : α)
    (h : k' ≠ k) : lookupKey (setKey m k v) k' = lookupKey m k' := by
  induction m with
  | nil => simp [setKey, lookupKey, Ne.symm h]
  | cons p rest ih =>
      obtain ⟨k₀, v₀⟩ := p
      by_cases h0 : k₀ = k
      · subst h0
        simp [setKey, lookupKey, Ne.symm h]
      · simp only [setKey, if_neg h0, lookupKey]
        by_cases h1 : k₀ = k'
        · simp [h1]
        · simp [h1, ih]

theorem lookupKey_eraseKey_self {α : Type} (m : Snap α) (k : String) :
    lookupKey (eraseKey m k) k = none := by
  induction m with
  | nil => simp [eraseKey, lookupKey]
  | cons p rest ih =>
      obtain ⟨k', v'⟩ := p
      by_cases h : k' = k
      · simp [eraseKey, h, ih]
      · simp [eraseKey, h, lookupKey, ih]

theorem lookupKey_eraseKey_ne {α : Type} (m : Snap α) (k k' : String)
    (h : k' ≠ k) : lookupKey (eraseKey m k) k' = lookupKey m k' := by
  induction m with
  | nil => simp [eraseKey]
  | cons p rest ih =>
      obtain ⟨k₀, v₀⟩ := p
      by_cases h0 : k₀ = k
      · subst h0
        simp [eraseKey, lookupKey, Ne.symm h, ih]
      · simp only [eraseKey, if_neg h0, lookupKey]
        by_cases h1 : k₀ = k'
        · simp [h1]
        · simp [h1, ih]

theorem lookupKey_eq_none_of_not_mem {α : Type} (m : Snap α) (k : String)
    (h : k ∉ m.map Prod.fst) : lookupKey m k = none := by
  induction m with
  | nil => simp [lookupKey]
  | cons p rest ih =>
      obtain ⟨k', v'⟩ := p
      simp only [List.map_cons, List.mem_cons, not_or] at h
      simp [lookupKey, Ne.symm h.1, ih h.2]

theorem not_mem_of_lookupKey_eq_none {α : Type} (m : Snap α) (k : String)
    (h : lookupKey m k = none) : k ∉ m.map Prod.fst := by
  induction m with
  | nil => simp
  | cons p rest ih =>
      obtain ⟨k', v'⟩ := p
      simp only [lookupKey] at h
      by_cases h0 : k' = k
      · simp [h0] at h
      · simp only [if_neg h0] at h
        simp [List.map_cons, Ne.symm h0, ih h]

theorem mem_keys_setKey {α : Type} (m : Snap α) (k k' : String) (v : α)
    (h : k' ∈ (setKey m k v).map Prod.fst) :
    k' ∈ m.map Prod.fst ∨ k' = k := by
  by_cases hk : k' = k
  · exact Or.inr hk
  · left
    by_contra hmem
    have h1 : lookupKey m k' = none := lookupKey_eq_none_of_not_mem m k' hmem
    have h2 : lookupKey (setKey m k v) k' = none := by
      rw [lookupKey_setKey_ne m k k' v hk, h1]
    exact not_mem_of_lookupKey_eq_none _ k' h2 h

theorem mem_keys_eraseKey {α : Type} (m : Snap α) (k k' : String)
    (h : k' ∈ (eraseKey m k).map Prod.fst) : k' ∈ m.map Prod.fst := by
  by_cases hk : k' = k
  · subst hk
    exact absurd h
      (not_mem_of_lookupKey_eq_none _ k' (lookupKey_eraseKey_self m k'))
  · by_contra hmem
    have h1 : lookupKey m k' = none := lookupKey_eq_none_of_not_mem m k' hmem
    have h2 : lookupKey (eraseKey m k) k' = none := by
      rw [lookupKey_eraseKey_ne m k k' hk, h1]
    exact not_mem_of_lookupKey_eq_none _ k' h2 h

theorem nodupKeys_setKey {α : Type} (m : Snap α) (k : String) (v : α)
    (h : NodupKeys m) : NodupKeys (setKey m k v) := by
  induction m with
  | nil => simp [setKey, NodupKeys]
  | cons p rest ih =>
      obtain ⟨k', v'⟩ := p
      simp only [NodupKeys, List.map_cons, List.nodup_cons] at h
      by_cases h0 : k' = k
      · subst h0
        simpa [setKey, NodupKeys] using h
      · simp only [setKey, if_neg h0, NodupKeys, List.map_cons, List.nodup_cons]
        refine ⟨?_, ih h.2⟩
        intro hmem
        rcases mem_keys_setKey rest k k' v hmem with hl | hr
        · exact h.1 hl
        · exact h0 hr

theorem nodupKeys_eraseKey {α : Type} (m : Snap α) (k : String)
    (h : NodupKeys m) : NodupKeys (eraseKey m k) := by
  induction m with
  | nil => simp [eraseKey, NodupKeys]
  | cons p rest ih =>
      obtain ⟨k', v'⟩ := p
      simp only [NodupKeys, List.map_cons, List.nodup_cons] at h
      by_cases h0 : k' = k
      · simp only [eraseKey, if_pos h0]
        exact ih h.2
      · simp only [eraseKey, if_neg h0, NodupKeys, List.map_cons, List.nodup_cons]
        exact ⟨fun hmem => h.1 (mem_keys_eraseKey rest k k' hmem), ih h.2⟩

theorem eraseKey_eq_of_lookup_none {α : Type} (m : Snap α) (k : String)
    (h : lookupKey m k = none) : eraseKey m k = m := by
  induction m with
  | nil => simp [eraseKey]
  | cons p rest ih =>
      obtain ⟨k', v'⟩ := p
      simp only [lookupKey] at h
      by_cases h0 : k' = k
      · simp [h0] at h
      · simp only [if_neg h0] at h
        simp [eraseKey, h0, ih h]

theorem resCount_setKey_fresh (m : Snap Reservation) (k : String)
    (r : Reservation) (hid : String) (h : lookupKey m k = none) :
    resCount (setKey m k r) hid
      = resCount m hid + (if r.hotel_id = hid then 1 else 0) := by
  induction m with
  | nil => simp [setKey, resCount]
  | cons p rest ih =>
      obtain ⟨k', v'⟩ := p
      simp only [lookupKey] at h
      by_cases h0 : k' = k
      · simp [h0] at h
      · simp only [if_neg h0] at h
        simp only [setKey, if_neg h0, resCount, ih h]
        omega

theorem resCount_eraseKey (m : Snap Reservation) (k : String)
    (r : Reservation) (hid : String) (hnd : NodupKeys m)
    (h : lookupKey m k = some r) :
    resCount m hid
      = resCount (eraseKey m k) hid + (if r.hotel_id = hid then 1 else 0) := by
  induction m with
  | nil => simp [lookupKey] at h
  | cons p rest ih =>
      obtain ⟨k', v'⟩ := p
      simp only [NodupKeys, List.map_cons, List.nodup_cons] at hnd
      simp only [lookupKey] at h
      by_cases h0 : k' = k
      · simp only [if_pos h0, Option.some_inj] at h
        subst h
        have hrest : lookupKey rest k = none := by
          apply lookupKey_eq_none_of_not_mem
          rw [← h0]
          exact hnd.1
        simp only [eraseKey, if_pos h0, eraseKey_eq_of_lookup_none rest k hrest,
          resCount]
        omega
      · simp only [if_neg h0] at h
        simp only [eraseKey, if_neg h0, resCount, ih hnd.2 h]
        omega

/-! ## Outcome characterizations of the room operations -/

theorem reserve_room_fail_eq (m : Snap Hotel) (k : String)
    (hf : (reserve_room m k).1 = false) : (reserve_room m k).2 = m := by
  cases hk : lookupKey m k with
  | none => simp [reserve_room, hk]
  | some hh =>
      by_cases hle : hh.available_rooms ≤ 0
      · simp [reserve_room, hk, hle]
      · exfalso
        simp [reserve_room, hk, hle] at hf

theorem reserve_room_success (m : Snap Hotel) (k : String)
    (hs : (reserve_room m k).1 = true) :
    ∃ h, lookupKey m k = some h ∧ 0 < h.available_rooms ∧
      (reserve_room m k).2
        = setKey m k { h with available_rooms := h.available_rooms - 1 } := by
  cases hk : lookupKey m k with
  | none => simp [reserve_room, hk] at hs
  | some hh =>
      by_cases hle : hh.available_rooms ≤ 0
      · simp [reserve_room, hk, hle] at hs
      · exact ⟨hh, rfl, by omega, by simp [reserve_room, hk, hle]⟩

theorem cancel_room_fail_eq (m : Snap Hotel) (k : String)
    (hf : (cancel_room m k).1 = false) : (cancel_room m k).2 = m := by
  cases hk : lookupKey m k with
  | none => simp [cancel_room, hk]
  | some hh =>
      by_cases hge : hh.available_rooms ≥ hh.total_rooms
      · simp [cancel_room, hk, hge]
      · exfalso
        simp [cancel_room, hk, hge] at hf

theorem cancel_room_success_of_lt (m : Snap Hotel) (k : String) (h : Hotel)
    (hk : lookupKey m k = some h) (hlt : h.available_rooms < h.total_rooms) :
    cancel_room m k
      = (true, setKey m k { h with available_rooms := h.available_rooms + 1 }) := by
  have hnge : ¬ h.available_rooms ≥ h.total_rooms := by omega
  simp [cancel_room, hk, hnge]

theorem cancel_room_lookup_ne (m : Snap Hotel) (k k' : String) (hne : k' ≠ k) :
    lookupKey (cancel_room m k).2 k' = lookupKey m k' := by
  cases hk : lookupKey m k with
  | none => simp [cancel_room, hk]
  | some hh =>
      by_cases hge : hh.available_rooms ≥ hh.total_rooms
      · simp [cancel_room, hk, hge]
      · simp [cancel_room, hk, hge, lookupKey_setKey_ne _ _ _ _ hne]

/-! ## Preservation of the round-trip invariant -/

theorem inv_stepEv (hid : String) (s : State) (e : Ev)
    (hf : freshEv s e = true) (hinv : Inv hid s) : Inv hid (stepEv s e) := by
  obtain ⟨hnd, h, hh, hcount⟩ := hinv
  cases e with
  | createRes nid cid hid' ci co =>
      have hfresh : lookupKey s.reservations nid = none := by
        simpa [freshEv] using hf
      by_cases hc : lookupKey s.customers cid = none
      · simp only [stepEv, create_reservation, hc, Option.isNone_none, if_true]
        exact ⟨hnd, h, hh, hcount⟩
      · by_cases hhid : lookupKey s.hotels hid' = none
        · simp only [stepEv, create_reservation, Option.isNone_iff_eq_none, hc,
            hhid, if_false, if_true]
          exact ⟨hnd, h, hh, hcount⟩
        · by_cases hres : (reserve_room s.hotels hid').1 = true
          · obtain ⟨h', hh', hpos, heq⟩ := reserve_room_success _ _ hres
            simp only [stepEv, create_reservation, Option.isNone_iff_eq_none, hc,
              hhid, if_false, hres, Bool.not_true, Bool.false_eq_true]
            refine ⟨nodupKeys_setKey _ _ _ hnd, ?_⟩
            by_cases hhh : hid' = hid
            · subst hhh
              have hhe : h' = h := by
                rw [hh'] at hh
                exact Option.some.inj hh
              subst hhe
              refine ⟨{ h' with available_rooms := h'.available_rooms - 1 }, ?_, ?_⟩
              · rw [heq]
                exact lookupKey_setKey_self _ _ _
              · rw [resCount_setKey_fresh _ _ _ _ hfresh]
                show h'.total_rooms - (h'.available_rooms - 1)
                  = ((resCount s.reservations hid'
                      + if hid' = hid' then 1 else 0 : Nat) : Int)
                rw [if_pos rfl]
                push_cast
                omega
            · refine ⟨h, ?_, ?_⟩
              · rw [heq, lookupKey_setKey_ne _ _ _ _ (fun hx => hhh hx.symm)]
                exact hh
              · rw [resCount_setKey_fresh _ _ _ _ hfresh]
                show h.total_rooms - h.available_rooms
                  = ((resCount s.reservations hid
                      + if hid' = hid then 1 else 0 : Nat) : Int)
                rw [if_neg hhh]
                omega
          · have hres' : (reserve_room s.hotels hid').1 = false := by
              cases hrr : (reserve_room s.hotels hid').1
              · rfl
              · exact absurd hrr hres
            have heq := reserve_room_fail_eq _ _ hres'
            simp only [stepEv, create_reservation, Option.isNone_iff_eq_none, hc,
              hhid, if_false, hres', Bool.not_false, if_true]
            rw [heq]
            exact ⟨hnd, h, hh, hcount⟩
  | cancelRes rid =>
      by_cases hrid : lookupKey s.reservations rid = none
      · simp only [stepEv, cancel_reservation, hrid]
        exact ⟨hnd, h, hh, hcount⟩
      · obtain ⟨r, hr⟩ : ∃ r, lookupKey s.reservations rid = some r := by
          cases hl : lookupKey s.reservations rid with
          | none => exact absurd hl hrid
          | some r => exact ⟨r, rfl⟩
        simp only [stepEv, cancel_reservation, hr]
        refine ⟨nodupKeys_eraseKey _ _ hnd, ?_⟩
        have hcnt := resCount_eraseKey s.reservations rid r hid hnd hr
        by_cases hrh : r.hotel_id = hid
        · rw [if_pos hrh] at hcnt
          have hlt : h.available_rooms < h.total_rooms := by omega
          refine ⟨{ h with available_rooms := h.available_rooms + 1 }, ?_, ?_⟩
          · rw [hrh, cancel_room_success_of_lt s.hotels hid h hh hlt]
            exact lookupKey_setKey_self _ _ _
          · show h.total_rooms - (h.available_rooms + 1)
              = ((resCount (eraseKey s.reservations rid) hid : Nat) : Int)
            omega
        · rw [if_neg hrh] at hcnt
          refine ⟨h, ?_, ?_⟩
          · rw [cancel_room_lookup_ne s.hotels r.hotel_id hid (fun hx => hrh hx.symm)]
            exact hh
          · show h.total_rooms - h.available_rooms
              = ((resCount (eraseKey s.reservations rid) hid : Nat) : Int)
            omega

theorem inv_runEvs (hid : String) (s : State) (evs : List Ev)
    (hf : freshRun s evs = true) (hinv : Inv hid s) :
    Inv hid (runEvs s evs) := by
  induction evs generalizing s with
  | nil => exact hinv
  | cons e es ih =>
      simp only [freshRun, Bool.and_eq_true] at hf
      exact ih (stepEv s e) hf.2 (inv_stepEv hid s e hf.1 hinv)

/-! ## Claim theorems -/

/-- C2: `Hotel.reserve_room` fails and leaves the snapshot unchanged when
the hotel id is absent (not found) or the hotel's `available_rooms` is
≤ 0 (no availability); otherwise it succeeds and the only change to the
snapshot is that this hotel's `available_rooms` decreases by exactly 1. -/
theorem reserve_room_correct (hotels : Snap Hotel) (hid : String) :
    (lookupKey hotels hid = none → reserve_room hotels hid = (false, hotels))
    ∧ (∀ h, lookupKey hotels hid = some h → h.available_rooms ≤ 0 →
        reserve_room hotels hid = (false, hotels))
    ∧ (∀ h, lookupKey hotels hid = some h → 0 < h.available_rooms →
        (reserve_room hotels hid).1 = true
        ∧ lookupKey (reserve_room hotels hid).2 hid
            = some { h with available_rooms := h.available_rooms - 1 }
        ∧ ∀ k, k ≠ hid →
            lookupKey (reserve_room hotels hid).2 k = lookupKey hotels k) := by
  refine ⟨?_, ?_, ?_⟩
  · intro hnone
    simp [reserve_room, hnone]
  · intro h hsome hle
    simp [reserve_room, hsome, hle]
  · intro h hsome hpos
    have hnle : ¬ h.available_rooms ≤ 0 := by omega
    refine ⟨by simp [reserve_room, hsome, hnle], ?_, ?_⟩
    · simp [reserve_room, hsome, hnle, lookupKey_setKey_self]
    · intro k hk
      simp [reserve_room, hsome, hnle, lookupKey_setKey_ne _ _ _ _ hk]

/-- Witness for C2: on the sample snapshot, reserving at `h1` (two rooms
free) succeeds, drops `h1` to one free room and leaves `h3` alone. -/
theorem reserve_room_correct_witness :
    lookupKey hotelsS "h1" = some hotelA
    ∧ 0 < hotelA.available_rooms
    ∧ (reserve_room hotelsS "h1").1 = true
    ∧ lookupKey (reserve_room hotelsS "h1").2 "h1"
        = some { hotelA with available_rooms := hotelA.available_rooms - 1 }
    ∧ lookupKey (reserve_room hotelsS "h1").2 "h3" = lookupKey hotelsS "h3" := by
  have hmain := (reserve_room_correct hotelsS "h1").2.2 hotelA (by decide) (by decide)
  exact ⟨by decide, by decide, hmain.1, hmain.2.1, hmain.2.2 "h3" (by decide)⟩

/-- C3: `Hotel.cancel_room` fails and leaves the snapshot unchanged when
the hotel id is absent (not found) or the hotel is at capacity
(`available_rooms ≥ total_rooms`); otherwise it succeeds and the only
change to the snapshot is that this hotel's `available_rooms` increases
by exactly 1. -/
theorem cancel_room_correct (hotels : Snap Hotel) (hid : String) :
    (lookupKey hotels hid = none → cancel_room hotels hid = (false, hotels))
    ∧ (∀ h, lookupKey hotels hid = some h → h.available_rooms ≥ h.total_rooms →
        cancel_room hotels hid = (false, hotels))
    ∧ (∀ h, lookupKey hotels hid = some h → h.available_rooms < h.total_rooms →
        (cancel_room hotels hid).1 = true
        ∧ lookupKey (cancel_room hotels hid).2 hid
            = some { h with available_rooms := h.available_rooms + 1 }
        ∧ ∀ k, k ≠ hid →
            lookupKey (cancel_room hotels hid).2 k = lookupKey hotels k) := by
  refine ⟨?_, ?_, ?_⟩
  · intro hnone
    simp [cancel_room, hnone]
  · intro h hsome hge
    simp [cancel_room, hsome, hge]
  · intro h hsome hlt
    have hnge : ¬ h.available_rooms ≥ h.total_rooms := by omega
    refine ⟨by simp [cancel_room, hsome, hnge], ?_, ?_⟩
    · simp [cancel_room, hsome, hnge, lookupKey_setKey_self]
    · intro k hk
      simp [cancel_room, hsome, hnge, lookupKey_setKey_ne _ _ _ _ hk]

/-- Witness for C3: on the sample snapshot, cancelling at `h3` (zero of
two rooms free) succeeds, raises `h3` to one free room and leaves `h1`
alone. -/
theorem cancel_room_correct_witness :
    lookupKey hotelsS "h3" = some hotelEmpty
    ∧ hotelEmpty.available_rooms < hotelEmpty.total_rooms
    ∧ (cancel_room hotelsS "h3").1 = true
    ∧ lookupKey (cancel_room hotelsS "h3").2 "h3"
        = some { hotelEmpty with available_rooms := hotelEmpty.available_rooms + 1 }
    ∧ lookupKey (cancel_room hotelsS "h3").2 "h1" = lookupKey hotelsS "h1" := by
  have hmain := (cancel_room_correct hotelsS "h3").2.2 hotelEmpty (by decide) (by decide)
  exact ⟨by decide, by decide, hmain.1, hmain.2.1, hmain.2.2 "h1" (by decide)⟩

/-- C4: `Reservation.create_reservation` fails and mutates no snapshot
when the customer id is absent or the hotel id is absent; and when the
hotel exists but has `available_rooms ≤ 0` it fails, creates no
reservation record and leaves `available_rooms` unchanged (the whole
state is returned untouched). -/
theorem create_reservation_failure_correct (s : State)
    (nid cid hid ci co : String) :
    (lookupKey s.customers cid = none →
        create_reservation s nid cid hid ci co = (none, s))
    ∧ (lookupKey s.hotels hid = none →
        create_reservation s nid cid hid ci co = (none, s))
    ∧ (∀ h, lookupKey s.hotels hid = some h → h.available_rooms ≤ 0 →
        create_reservation s nid cid hid ci co = (none, s)) := by
  refine ⟨?_, ?_, ?_⟩
  · intro hc
    simp [create_reservation, hc]
  · intro hh
    by_cases hc : lookupKey s.customers cid = none
    · simp [create_reservation, hc]
    · simp [create_reservation, hc, hh]
  · intro h hh hle
    by_cases hc : lookupKey s.customers cid = none
    · simp [create_reservation, hc]
    · have hfail : reserve_room s.hotels hid = (false, s.hotels) := by
        simp [reserve_room, hh, hle]
      simp [create_reservation, hc, hh, hfail]

/-- Witness for C4: on the sample state, creating with an unknown
customer, with an unknown hotel, and against the sold-out hotel `h3` all
return failure with the state unchanged. -/
theorem create_reservation_failure_witness :
    create_reservation stateS "r9" "zz" "h1" "d1" "d2" = (none, stateS)
    ∧ create_reservation stateS "r9" "c1" "zz" "d1" "d2" = (none, stateS)
    ∧ create_reservation stateS "r9" "c1" "h3" "d1" "d2" = (none, stateS) :=
  ⟨(create_reservation_failure_correct stateS "r9" "zz" "h1" "d1" "d2").1 (by decide),
   (create_reservation_failure_correct stateS "r9" "c1" "zz" "d1" "d2").2.1 (by decide),
   (create_reservation_failure_correct stateS "r9" "c1" "h3" "d1" "d2").2.2
     hotelEmpty (by decide) (by decide)⟩

/-- C5: when the reservation id is present, `cancel_reservation` removes
that record (leaving all other reservations and the customers snapshot
alone) and returns success even when the delegated `cancel_room` fails;
when `cancel_room` succeeds the hotel gets one room back.  When the id
is absent it fails and changes nothing. -/
theorem cancel_reservation_correct (s : State) (rid : String) :
    (lookupKey s.reservations rid = none → cancel_reservation s rid = (false, s))
    ∧ (∀ r, lookupKey s.reservations rid = some r →
        (cancel_reservation s rid).1 = true
        ∧ lookupKey (cancel_reservation s rid).2.reservations rid = none
        ∧ (∀ k, k ≠ rid →
            lookupKey (cancel_reservation s rid).2.reservations k
              = lookupKey s.reservations k)
        ∧ (cancel_reservation s rid).2.customers = s.customers
        ∧ ((cancel_room s.hotels r.hotel_id).1 = false →
            (cancel_reservation s rid).2.hotels = s.hotels)
        ∧ (∀ h, lookupKey s.hotels r.hotel_id = some h →
            h.available_rooms < h.total_rooms →
            lookupKey (cancel_reservation s rid).2.hotels r.hotel_id
              = some { h with available_rooms := h.available_rooms + 1 })) := by
  constructor
  · intro hnone
    simp [cancel_reservation, hnone]
  · intro r hr
    refine ⟨by simp [cancel_reservation, hr], ?_, ?_, ?_, ?_, ?_⟩
    · simp [cancel_reservation, hr, lookupKey_eraseKey_self]
    · intro k hk
      simp [cancel_reservation, hr, lookupKey_eraseKey_ne _ _ _ hk]
    · simp [cancel_reservation, hr]
    · intro hfail
      simp [cancel_reservation, hr, cancel_room_fail_eq _ _ hfail]
    · intro h hh hlt
      simp [cancel_reservation, hr, cancel_room_success_of_lt _ _ h hh hlt,
        lookupKey_setKey_self]

/-- Witness for C5: cancelling `r0` (a reservation at the sold-out `h3`)
succeeds, removes the record and gives `h3` a room back; cancelling `r1`
in a state where `h1` is already at capacity still succeeds while the
hotels snapshot stays as it was. -/
theorem cancel_reservation_correct_witness :
    ((cancel_reservation stateS "r0").1 = true
      ∧ lookupKey (cancel_reservation stateS "r0").2.reservations "r0" = none
      ∧ lookupKey (cancel_reservation stateS "r0").2.hotels "h3"
          = some { hotelEmpty with available_rooms := hotelEmpty.available_rooms + 1 })
    ∧ ((cancel_reservation stateT "r1").1 = true
      ∧ (cancel_reservation stateT "r1").2.hotels = stateT.hotels) := by
  have h1 := (cancel_reservation_correct stateS "r0").2
    ⟨"r0", "c1", "h3", "d1", "d2"⟩ (by decide)
  have h2 := (cancel_reservation_correct stateT "r1").2 resA (by decide)
  exact ⟨⟨h1.1, h1.2.1, h1.2.2.2.2.2 hotelEmpty (by decide) (by decide)⟩,
         h2.1, h2.2.2.2.2.1 (by decide)⟩

/-- C6: for a hotel present in the snapshot, `modify_hotel` with a
supplied `total_rooms` value stores exactly that value (whatever the
sign of the delta) and sets `available_rooms` to
`max 0 (old available + (new total - old total))`. -/
theorem modify_hotel_total_correct (hotels : Snap Hotel) (hid : String)
    (oname oloc : Option String) (t : Int) :
    ∀ h, lookupKey hotels hid = some h →
      (modify_hotel hotels hid oname oloc (some t)).1 = true
      ∧ ∃ h', lookupKey (modify_hotel hotels hid oname oloc (some t)).2 hid = some h'
          ∧ h'.total_rooms = t
          ∧ h'.available_rooms = max 0 (h.available_rooms + (t - h.total_rooms)) := by
  intro h hsome
  constructor
  · cases htn : truthyStr oname <;> cases htl : truthyStr oloc <;>
      simp [modify_hotel, hsome, htn, htl]
  · cases htn : truthyStr oname <;> cases htl : truthyStr oloc <;>
      simp only [modify_hotel, hsome, htn, htl, Bool.false_eq_true, if_false,
        if_true, reduceIte] <;>
      exact ⟨_, lookupKey_setKey_self _ _ _, rfl, rfl⟩

/-- Witness for C6 (Scenario E): raising `total_rooms` of a 10/10 hotel
to 15 succeeds and the stored hotel shows `total_rooms = 15` and
`available_rooms = max 0 (10 + (15 - 10)) = 15`. -/
theorem modify_hotel_total_correct_witness :
    (modify_hotel [("h10", hotelTen)] "h10" none none (some 15)).1 = true
    ∧ ∃ h', lookupKey (modify_hotel [("h10", hotelTen)] "h10" none none (some 15)).2 "h10"
        = some h'
        ∧ h'.total_rooms = 15
        ∧ h'.available_rooms = max 0 (hotelTen.available_rooms + (15 - hotelTen.total_rooms)) :=
  modify_hotel_total_correct [("h10", hotelTen)] "h10" none none 15 hotelTen (by decide)

/-- C7: creating a customer or a hotel under an id that is already
present reports the duplicate (a `none` result) and leaves the whole
snapshot unchanged. -/
theorem create_duplicate_correct (customers : Snap Customer)
    (hotels : Snap Hotel) (cid cn ce cp hid hn hl : String) (t : Int) :
    (∀ c, lookupKey customers cid = some c →
        create_customer customers cid cn ce cp = (none, customers))
    ∧ (∀ h, lookupKey hotels hid = some h →
        create_hotel hotels hid hn hl t = (none, hotels)) := by
  constructor
  · intro c hc
    simp [create_customer, hc]
  · intro h hh
    simp [create_hotel, hh]

/-- Witness for C7: re-creating customer `c1` and hotel `h1` on the
sample snapshots fails and changes nothing. -/
theorem create_duplicate_correct_witness :
    create_customer customersS "c1" "X" "y" "z" = (none, customersS)
    ∧ create_hotel hotelsS "h1" "X" "Y" 9 = (none, hotelsS) :=
  ⟨(create_duplicate_correct customersS hotelsS "c1" "X" "y" "z" "h1" "X" "Y" 9).1
      custA (by decide),
   (create_duplicate_correct customersS hotelsS "c1" "X" "y" "z" "h1" "X" "Y" 9).2
      hotelA (by decide)⟩

/-- C8: for a customer present in the snapshot, `modify_customer`
returns success and overwrites exactly the fields supplied with a
truthy (non-`None`, non-empty) value, leaving omitted or empty fields
untouched and every other customer unchanged; for an absent id it fails
and changes nothing. -/
theorem modify_customer_correct (customers : Snap Customer) (cid : String)
    (oname oemail ophone : Option String) :
    (lookupKey customers cid = none →
        modify_customer customers cid oname oemail ophone = (false, customers))
    ∧ (∀ c, lookupKey customers cid = some c →
        (modify_customer customers cid oname oemail ophone).1 = true
        ∧ lookupKey (modify_customer customers cid oname oemail ophone).2 cid
            = some
              { customer_id := c.customer_id,
                name := if truthyStr oname then getStr oname c.name else c.name,
                email := if truthyStr oemail then getStr oemail c.email else c.email,
                phone := if truthyStr ophone then getStr ophone c.phone else c.phone }
        ∧ ∀ k, k ≠ cid →
            lookupKey (modify_customer customers cid oname oemail ophone).2 k
              = lookupKey customers k) := by
  constructor
  · intro hnone
    simp [modify_customer, hnone]
  · intro c hc
    refine ⟨by simp [modify_customer, hc], ?_, ?_⟩
    · cases hn : truthyStr oname <;> cases he : truthyStr oemail <;>
        cases hp : truthyStr ophone <;>
        simp [modify_customer, hc, hn, hp, he, lookupKey_setKey_self]
    · intro k hk
      simp [modify_customer, hc, lookupKey_setKey_ne _ _ _ _ hk]

/-- Witness for C8: updating `c1` with a new email, an empty name and an
omitted phone changes only the email and leaves the absent key `zz`
reads unchanged. -/
theorem modify_customer_correct_witness :
    (modify_customer customersS "c1" (some "") (some "new@mail.com") none).1 = true
    ∧ lookupKey (modify_customer customersS "c1" (some "") (some "new@mail.com") none).2 "c1"
        = some ⟨"c1", "Ana", "new@mail.com", "111"⟩
    ∧ lookupKey (modify_customer customersS "c1" (some "") (some "new@mail.com") none).2 "zz"
        = lookupKey customersS "zz" := by
  have hmain := (modify_customer_correct customersS "c1"
    (some "") (some "new@mail.com") none).2 custA (by decide)
  exact ⟨hmain.1, by simpa using hmain.2.1, hmain.2.2 "zz" (by decide)⟩

/-- C9: deleting or modifying a customer or hotel under an absent id,
and cancelling an absent reservation, each report failure and return
every snapshot exactly as it was. -/
theorem absent_id_noop (customers : Snap Customer) (hotels : Snap Hotel)
    (s : State) (cid hid rid : String) (cn ce cp hn hl : Option String)
    (t : Option Int) :
    (lookupKey customers cid = none →
        delete_customer customers cid = (false, customers)
        ∧ modify_customer customers cid cn ce cp = (false, customers))
    ∧ (lookupKey hotels hid = none →
        delete_hotel hotels hid = (false, hotels)
        ∧ modify_hotel hotels hid hn hl t = (false, hotels))
    ∧ (lookupKey s.reservations rid = none →
        cancel_reservation s rid = (false, s)) := by
  refine ⟨fun h => ⟨?_, ?_⟩, fun h => ⟨?_, ?_⟩, fun h => ?_⟩ <;>
    simp [delete_customer, modify_customer, delete_hotel, modify_hotel,
      cancel_reservation, h]

/-- Witness for C9: on the sample snapshots, every operation aimed at
the absent id `zz` fails and returns its snapshot unchanged. -/
theorem absent_id_noop_witness :
    (delete_customer customersS "zz" = (false, customersS)
      ∧ modify_customer customersS "zz" none none none = (false, customersS))
    ∧ (delete_hotel hotelsS "zz" = (false, hotelsS)
      ∧ modify_hotel hotelsS "zz" none none none = (false, hotelsS))
    ∧ cancel_reservation stateS "zz" = (false, stateS) :=
  ⟨(absent_id_noop customersS hotelsS stateS "zz" "zz" "zz"
      none none none none none none).1 (by decide),
   (absent_id_noop customersS hotelsS stateS "zz" "zz" "zz"
      none none none none none none).2.1 (by decide),
   (absent_id_noop customersS hotelsS stateS "zz" "zz" "zz"
      none none none none none none).2.2 (by decide)⟩

/-- C10: the room counts are not validated: creating a hotel with any
integer `total_rooms` (zero or negative) succeeds on a fresh id and
stores `available_rooms = total_rooms`; `modify_hotel` applies an
explicitly supplied `total_rooms = 0` (its test is on presence, not
truthiness); and a negative supplied total is stored as-is while
`available_rooms` is clamped at 0, leaving `available_rooms >
total_rooms`. -/
theorem hotel_rooms_unvalidated (hotels : Snap Hotel) (hid nm loc : String)
    (t : Int) :
    (lookupKey hotels hid = none →
        create_hotel hotels hid nm loc t
          = (some ⟨hid, nm, loc, t, t⟩, setKey hotels hid ⟨hid, nm, loc, t, t⟩))
    ∧ (∀ h, lookupKey hotels hid = some h →
        ∃ h', lookupKey (modify_hotel hotels hid none none (some 0)).2 hid = some h'
          ∧ h'.total_rooms = 0
          ∧ h'.available_rooms = max 0 (h.available_rooms + (0 - h.total_rooms)))
    ∧ (∀ h, lookupKey hotels hid = some h → t < 0 →
        ∃ h', lookupKey (modify_hotel hotels hid none none (some t)).2 hid = some h'
          ∧ h'.total_rooms = t
          ∧ 0 ≤ h'.available_rooms
          ∧ h'.total_rooms < h'.available_rooms) := by
  refine ⟨?_, ?_, ?_⟩
  · intro hnone
    simp [create_hotel, hnone]
  · intro h hh
    simp only [modify_hotel, hh, truthyStr, Bool.false_eq_true, if_false, reduceIte]
    exact ⟨_, lookupKey_setKey_self _ _ _, rfl, rfl⟩
  · intro h hh ht
    simp only [modify_hotel, hh, truthyStr, Bool.false_eq_true, if_false, reduceIte]
    refine ⟨_, lookupKey_setKey_self _ _ _, rfl, ?_, ?_⟩
    · show (0 : Int) ≤ max 0 (h.available_rooms + (t - h.total_rooms))
      exact le_max_left 0 _
    · show t < max 0 (h.available_rooms + (t - h.total_rooms))
      have hmax := le_max_left 0 (h.available_rooms + (t - h.total_rooms))
      omega

/-- Witness for C10: creating a hotel with `total_rooms = -3` succeeds
and stores `-3` free rooms; applying `total_rooms = 0` to `h1` stores 0;
applying `-3` to `h1` leaves a record with more available than total
rooms. -/
theorem hotel_rooms_unvalidated_witness :
    create_hotel [] "hN" "Neg" "Nowhere" (-3)
      = (some ⟨"hN", "Neg", "Nowhere", -3, -3⟩,
         setKey [] "hN" ⟨"hN", "Neg", "Nowhere", -3, -3⟩)
    ∧ (∃ h', lookupKey (modify_hotel hotelsS "h1" none none (some 0)).2 "h1" = some h'
        ∧ h'.total_rooms = 0
        ∧ h'.available_rooms = max 0 (hotelA.available_rooms + (0 - hotelA.total_rooms)))
    ∧ (∃ h', lookupKey (modify_hotel hotelsS "h1" none none (some (-3))).2 "h1" = some h'
        ∧ h'.total_rooms = -3
        ∧ 0 ≤ h'.available_rooms
        ∧ h'.total_rooms < h'.available_rooms) :=
  ⟨(hotel_rooms_unvalidated [] "hN" "Neg" "Nowhere" (-3)).1 rfl,
   (hotel_rooms_unvalidated hotelsS "h1" "x" "y" (-3)).2.1 hotelA (by decide),
   (hotel_rooms_unvalidated hotelsS "h1" "x" "y" (-3)).2.2 hotelA (by decide) (by decide)⟩

/-- C1: starting from a state whose reservation snapshot has distinct
keys, in which hotel `hid` has all its rooms free
(`available_rooms = total_rooms`) and no live reservation references it,
any sequence of `create_reservation` / `cancel_reservation` calls (the
only mutations touching the snapshots, with collision-free generated
ids) leaves the hotel with `total_rooms - available_rooms` equal to the
number of live reservation records whose `hotel_id` is `hid`. -/
theorem reservation_roundtrip (s : State) (hid : String) (h : Hotel)
    (evs : List Ev)
    (hnd : NodupKeys s.reservations)
    (hh : lookupKey s.hotels hid = some h)
    (hfull : h.available_rooms = h.total_rooms)
    (hzero : resCount s.reservations hid = 0)
    (hfr : freshRun s evs = true) :
    ∃ h', lookupKey (runEvs s evs).hotels hid = some h'
      ∧ h'.total_rooms - h'.available_rooms
          = (resCount (runEvs s evs).reservations hid : Int) := by
  have hinv : Inv hid s := ⟨hnd, h, hh, by rw [hfull, hzero]; simp⟩
  exact (inv_runEvs hid s evs hfr hinv).2

/-- Witness for C1: on the sample state (hotel `h1` with 2/2 rooms free,
one unrelated reservation at `h3`), the trace "create at `h1`, create at
`h1` again, cancel the first" satisfies the invariant hypotheses, so
afterwards `h1` shows one consumed room matching its one live
reservation. -/
theorem reservation_roundtrip_witness :
    ∃ h', lookupKey (runEvs stateS
        [Ev.createRes "ra" "c1" "h1" "d1" "d2",
         Ev.createRes "rb" "c1" "h1" "d3" "d4",
         Ev.cancelRes "ra"]).hotels "h1" = some h'
      ∧ h'.total_rooms - h'.available_rooms
          = (resCount (runEvs stateS
              [Ev.createRes "ra" "c1" "h1" "d1" "d2",
               Ev.createRes "rb" "c1" "h1" "d3" "d4",
               Ev.cancelRes "ra"]).reservations "h1" : Int) :=
  reservation_roundtrip stateS "h1" hotelA
    [Ev.createRes "ra" "c1" "h1" "d1" "d2",
     Ev.createRes "rb" "c1" "h1" "d3" "d4",
     Ev.cancelRes "ra"]
    (by decide) (by decide) (by decide) (by decide) (by decide)

end HotelSys
